import Mathlib

set_option linter.unusedVariables false

/-!
Shallow embedding of the Solvium captcha client (src/solvium/client.py).

The client submits a solve task over HTTP, then polls the task status until a
terminal outcome.  HTTP transport is external: each HTTP call is modelled by
its observable outcome (a parsed JSON body, or one of the exception classes
the client catches).  The JSON bodies the client inspects have fixed shapes,
modelled as structures with optional fields (a `none` field models the key
being absent from the JSON object).
-/

namespace Solvium

/-- Enumeration of possible task statuses, from `class TaskStatus(StrEnum)`. -/
inductive TaskStatus where
  | pending
  | running
  | completed
  | rejected
  | no_status
  deriving DecidableEq, Repr

/-- Conversion of a status string to the enumeration, modelling the Python
call `TaskStatus(s)`: it yields the member whose value equals `s`, and raises
ValueError (modelled by `none`) for any other string. -/
def TaskStatus.fromString : String → Option TaskStatus
  | "pending" => some .pending
  | "running" => some .running
  | "completed" => some .completed
  | "rejected" => some .rejected
  | "no_status" => some .no_status
  | _ => none

/-- Observable outcome of one HTTP call made through the client session:
either a parsed JSON body of shape `α`, or one of the exception situations
handled in `Solvium._api_call` (connection error, other network error, proxy
error, or any other exception, e.g. a body that fails JSON parsing). -/
inductive TransportOutcome (α : Type) where
  | ok (body : α)
  | connectError
  | networkError
  | proxyError
  | jsonError
  | otherError
  deriving DecidableEq, Repr

/-- Embedding of `Solvium._api_call`: returns the parsed JSON body, and turns
every caught exception (connect, network, proxy, anything else) into `None`
after logging. -/
def apiCall {α : Type} : TransportOutcome α → Option α
  | .ok body => some body
  | .connectError => none
  | .networkError => none
  | .proxyError => none
  | .jsonError => none
  | .otherError => none

/-- Shape of the task-creation response body, as read by
`Solvium._new_task_wrapper`: the `message` and `task_id` fields, `none` when
the field is absent (or JSON null). -/
structure CreationResponse where
  message : Option String
  task_id : Option String
  deriving DecidableEq, Repr

/-- Expected message when a task is successfully created
(`Solvium.TASK_CREATED_MSG`). -/
def TASK_CREATED_MSG : String := "Task created"

/-- Embedding of `Solvium._new_task_wrapper`: returns the task id only when
the call produced a body whose `message` equals `TASK_CREATED_MSG` and whose
`task_id` is present and non-null; every other path logs and returns `None`. -/
def newTaskWrapper (o : TransportOutcome CreationResponse) : Option String :=
  match apiCall o with
  | none => none
  | some response =>
    match response.message with
    | none => none
    | some message =>
      if message = TASK_CREATED_MSG then
        match response.task_id with
        | none => none
        | some task_id => some task_id
      else none

/-- Shape of the `result` object inside a status response:
optional `solution` and `error` fields. -/
structure ResultObj where
  solution : Option String
  error : Option String
  deriving DecidableEq, Repr

/-- Shape of a `GET /task/status/{task_id}` response body: an optional
`status` string and an optional `result` object. -/
structure StatusResponse where
  status : Option String
  result : Option ResultObj
  deriving DecidableEq, Repr

/-- Outcome of `Solvium._wait_for_task_completion` run against a finite
sequence of poll-round outcomes (the rounds that happen before the outer
timeout fires):
* `returned sol polls sleeps` — the loop executed `return` with value `sol`
  on poll number `polls`, after `sleeps` intermediate jitter sleeps;
* `raised bad` — the call `TaskStatus(bad)` raised ValueError, which no layer
  of the client catches;
* `exhausted polls sleeps` — the rounds ran out with the loop still going
  (the loop itself is infinite; the outer timeout is what ends it). -/
inductive PollOutcome where
  | returned (sol : Option String) (polls : Nat) (sleeps : Nat)
  | raised (bad : String)
  | exhausted (polls : Nat) (sleeps : Nat)
  deriving DecidableEq, Repr

/-- Accounts one more leading non-terminal round: one more poll and one more
jitter sleep before whatever the rest of the loop does. -/
def PollOutcome.bump : PollOutcome → PollOutcome
  | .returned sol polls sleeps => .returned sol (polls + 1) (sleeps + 1)
  | .raised bad => .raised bad
  | .exhausted polls sleeps => .exhausted (polls + 1) (sleeps + 1)

/-- Embedding of `Solvium._wait_for_task_completion`, one loop iteration per
list element.  Each round: the status call goes through `_api_call`; on no
response the loop sleeps and retries; otherwise the status string (defaulting
to "no_status" when the field is absent) is fed to `TaskStatus(...)`.
`pending`/`running` log (when verbose) and fall through to the sleep, and so
does `no_status`, which no `case` of the `match` matches; `completed` returns
`result.solution` with `result` defaulting to the empty object and `solution`
defaulting to "NO_SOLUTION"; `rejected` logs `result.error` (defaulting to
"NO_ERROR_RETURNED") and returns `None`. -/
def waitForTaskCompletion : List (TransportOutcome StatusResponse) → PollOutcome
  | [] => .exhausted 0 0
  | round :: rest =>
    match apiCall round with
    | none => (waitForTaskCompletion rest).bump
    | some response =>
      match TaskStatus.fromString (response.status.getD "no_status") with
      | none => .raised (response.status.getD "no_status")
      | some .pending => (waitForTaskCompletion rest).bump
      | some .running => (waitForTaskCompletion rest).bump
      | some .no_status => (waitForTaskCompletion rest).bump
      | some .completed =>
        .returned (some (((response.result.getD ⟨none, none⟩).solution).getD "NO_SOLUTION")) 1 0
      | some .rejected => .returned none 1 0

/-- Python truthiness of an `Optional[str]` value, as used by the facade
test `if not task_id`: `None` and the empty string are falsy. -/
def pyTruthy : Option String → Bool
  | none => false
  | some s => s ≠ ""

/-- Result of one facade operation as seen by its caller:
* `value sol` — the operation returned normally (`sol = none` is Python
  `None`, "no solution");
* `timeoutError` — `asyncio.wait_for` raised `asyncio.TimeoutError`, which
  the facade does not catch;
* `valueError bad` — the ValueError raised by `TaskStatus(bad)` propagated
  through `asyncio.wait_for` to the caller. -/
inductive OpResult where
  | value (sol : Option String)
  | timeoutError
  | valueError (bad : String)
  deriving DecidableEq, Repr

/-- Embedding of `asyncio.wait_for(self._wait_for_task_completion(task_id),
timeout=self.timeout)`: when the poller returns within the timeout its value
is returned, an exception raised inside it propagates, and if the rounds that
fit in the timeout window are exhausted without a return, the timeout fires
and `asyncio.TimeoutError` is raised. -/
def waitFor : PollOutcome → OpResult
  | .returned sol _ _ => .value sol
  | .raised bad => .valueError bad
  | .exhausted _ _ => .timeoutError

/-- Environment of one solve operation: the outcome of the task-creation
HTTP call, and the outcomes of the successive status-poll HTTP calls that
happen before the overall timeout elapses. -/
structure Transport where
  creation : TransportOutcome CreationResponse
  polls : List (TransportOutcome StatusResponse)
  deriving DecidableEq, Repr

/-- Common body of every facade operation: create the task; if the resulting
task id is falsy return `None` at once; otherwise poll under the timeout. -/
def solveOp (t : Transport) : OpResult :=
  let task_id := newTaskWrapper t.creation
  if ¬ pyTruthy task_id then .value none
  else waitFor (waitForTaskCompletion t.polls)

/-- Embedding of `Solvium._create_turnstile_task` (the request itself is
transport-side; its observable outcome is `t.creation`). -/
def createTurnstileTask (t : Transport) (sitekey pageurl : String) : Option String :=
  newTaskWrapper t.creation

/-- Embedding of `Solvium._create_noname_task`. -/
def createNonameTask (t : Transport) (sitekey pageurl : String) : Option String :=
  newTaskWrapper t.creation

/-- Embedding of `Solvium._create_cf_clearance_task`. -/
def createCfClearanceTask (t : Transport) (pageurl body_b64 proxy : String) : Option String :=
  newTaskWrapper t.creation

/-- Embedding of `Solvium._create_vercel_task`. -/
def createVercelTask (t : Transport) (challenge_token : String) : Option String :=
  newTaskWrapper t.creation

/-- Embedding of `Solvium._create_recaptcha_v3_task`. -/
def createRecaptchaV3Task (t : Transport) (sitekey pageurl action : String) : Option String :=
  newTaskWrapper t.creation

/-- Embedding of `Solvium.turnstile`. -/
def turnstile (t : Transport) (sitekey pageurl : String) : OpResult :=
  let task_id := createTurnstileTask t sitekey pageurl
  if ¬ pyTruthy task_id then .value none
  else waitFor (waitForTaskCompletion t.polls)

/-- Embedding of `Solvium.noname`. -/
def noname (t : Transport) (sitekey pageurl : String) : OpResult :=
  let task_id := createNonameTask t sitekey pageurl
  if ¬ pyTruthy task_id then .value none
  else waitFor (waitForTaskCompletion t.polls)

/-- Embedding of `Solvium.cf_clearance`. -/
def cf_clearance (t : Transport) (pageurl body_b64 proxy : String) : OpResult :=
  let task_id := createCfClearanceTask t pageurl body_b64 proxy
  if ¬ pyTruthy task_id then .value none
  else waitFor (waitForTaskCompletion t.polls)

/-- Embedding of `Solvium.vercel`. -/
def vercel (t : Transport) (challenge_token : String) : OpResult :=
  let task_id := createVercelTask t challenge_token
  if ¬ pyTruthy task_id then .value none
  else waitFor (waitForTaskCompletion t.polls)

/-- Embedding of `Solvium.recaptcha_v3`. -/
def recaptcha_v3 (t : Transport) (sitekey pageurl action : String) : OpResult :=
  let task_id := createRecaptchaV3Task t sitekey pageurl action
  if ¬ pyTruthy task_id then .value none
  else waitFor (waitForTaskCompletion t.polls)

/-- Denotation of `asyncio.run(coro)`: it drives the coroutine to completion
and hands its result (or its exception) to the blocking caller, so on
outcomes it is the identity. -/
def asyncioRun (r : OpResult) : OpResult := r

/-- Embedding of `Solvium.turnstile_sync`. -/
def turnstile_sync (t : Transport) (sitekey pageurl : String) : OpResult :=
  asyncioRun (turnstile t sitekey pageurl)

/-- Embedding of `Solvium.noname_sync`. -/
def noname_sync (t : Transport) (sitekey pageurl : String) : OpResult :=
  asyncioRun (noname t sitekey pageurl)

/-- Embedding of `Solvium.cf_clearance_sync`. -/
def cf_clearance_sync (t : Transport) (pageurl body_b64 proxy : String) : OpResult :=
  asyncioRun (cf_clearance t pageurl body_b64 proxy)

/-- Embedding of `Solvium.vercel_sync`. -/
def vercel_sync (t : Transport) (challenge_token : String) : OpResult :=
  asyncioRun (vercel t challenge_token)

/-- Embedding of `Solvium.recaptcha_v3_sync`. -/
def recaptcha_v3_sync (t : Transport) (sitekey pageurl action : String) : OpResult :=
  asyncioRun (recaptcha_v3 t sitekey pageurl action)

/-- A poll round whose observed status is terminal for the loop: the status
call produced a body and its status string parses to `completed` or
`rejected`. -/
def IsTerminalRound (round : TransportOutcome StatusResponse) : Bool :=
  match apiCall round with
  | none => false
  | some response =>
    match TaskStatus.fromString (response.status.getD "no_status") with
    | some .completed => true
    | some .rejected => true
    | _ => false

/-- A poll round the loop absorbs and retries after: a transport failure, or
a body whose status string parses to one of the non-terminal statuses
(`pending`, `running`, `no_status`). -/
def IsAbsorbedRound (round : TransportOutcome StatusResponse) : Bool :=
  match apiCall round with
  | none => true
  | some response =>
    match TaskStatus.fromString (response.status.getD "no_status") with
    | some .pending => true
    | some .running => true
    | some .no_status => true
    | _ => false

/-- Helper: an outcome that is not a return stays not a return after
accounting one more leading non-terminal round. -/
theorem bump_ne_returned (o : PollOutcome) (sol : Option String) (p k : Nat)
    (h : ∀ s p' k', o ≠ .returned s p' k') : o.bump ≠ .returned sol p k := by
  cases o with
  | returned s p' k' => exact absurd rfl (h s p' k')
  | raised bad => simp [PollOutcome.bump]
  | exhausted p' k' => simp [PollOutcome.bump]

/-- Helper: a poll sequence whose rounds are all absorbed (transport failure
or non-terminal status) drives the loop to exhaustion, with one poll and one
jitter sleep per round. -/
theorem wait_absorbed_exhausted :
    ∀ (polls : List (TransportOutcome StatusResponse)),
      (∀ r ∈ polls, IsAbsorbedRound r = true) →
      waitForTaskCompletion polls = .exhausted polls.length polls.length := by
  intro polls
  induction polls with
  | nil => intro _; rfl
  | cons round rest ih =>
    intro h
    have hround : IsAbsorbedRound round = true := h round (List.mem_cons_self _ _)
    have hrest : ∀ r ∈ rest, IsAbsorbedRound r = true :=
      fun r hr => h r (List.mem_cons_of_mem _ hr)
    cases round with
    | ok response =>
      cases hs : TaskStatus.fromString (response.status.getD "no_status") with
      | none => simp [IsAbsorbedRound, apiCall, hs] at hround
      | some st =>
        cases st with
        | pending => simp [waitForTaskCompletion, apiCall, hs, ih hrest, PollOutcome.bump]
        | running => simp [waitForTaskCompletion, apiCall, hs, ih hrest, PollOutcome.bump]
        | no_status => simp [waitForTaskCompletion, apiCall, hs, ih hrest, PollOutcome.bump]
        | completed => simp [IsAbsorbedRound, apiCall, hs] at hround
        | rejected => simp [IsAbsorbedRound, apiCall, hs] at hround
    | connectError => simp [waitForTaskCompletion, apiCall, ih hrest, PollOutcome.bump]
    | networkError => simp [waitForTaskCompletion, apiCall, ih hrest, PollOutcome.bump]
    | proxyError => simp [waitForTaskCompletion, apiCall, ih hrest, PollOutcome.bump]
    | jsonError => simp [waitForTaskCompletion, apiCall, ih hrest, PollOutcome.bump]
    | otherError => simp [waitForTaskCompletion, apiCall, ih hrest, PollOutcome.bump]

/-- Helper: the poll loop cannot execute a return unless some round's status
parses to a terminal status (completed or rejected). -/
theorem wait_no_terminal_not_returned :
    ∀ (polls : List (TransportOutcome StatusResponse)),
      (∀ r ∈ polls, IsTerminalRound r = false) →
      ∀ sol p k, waitForTaskCompletion polls ≠ .returned sol p k := by
  intro polls
  induction polls with
  | nil => intro _ sol p k; simp [waitForTaskCompletion]
  | cons round rest ih =>
    intro h sol p k
    have hround : IsTerminalRound round = false := h round (List.mem_cons_self _ _)
    have hrest : ∀ r ∈ rest, IsTerminalRound r = false :=
      fun r hr => h r (List.mem_cons_of_mem _ hr)
    cases round with
    | ok response =>
      cases hs : TaskStatus.fromString (response.status.getD "no_status") with
      | none => simp [waitForTaskCompletion, apiCall, hs]
      | some st =>
        cases st with
        | pending =>
          simpa [waitForTaskCompletion, apiCall, hs] using
            bump_ne_returned _ sol p k (ih hrest)
        | running =>
          simpa [waitForTaskCompletion, apiCall, hs] using
            bump_ne_returned _ sol p k (ih hrest)
        | no_status =>
          simpa [waitForTaskCompletion, apiCall, hs] using
            bump_ne_returned _ sol p k (ih hrest)
        | completed => simp [IsTerminalRound, apiCall, hs] at hround
        | rejected => simp [IsTerminalRound, apiCall, hs] at hround
    | connectError =>
      simpa [waitForTaskCompletion, apiCall] using bump_ne_returned _ sol p k (ih hrest)
    | networkError =>
      simpa [waitForTaskCompletion, apiCall] using bump_ne_returned _ sol p k (ih hrest)
    | proxyError =>
      simpa [waitForTaskCompletion, apiCall] using bump_ne_returned _ sol p k (ih hrest)
    | jsonError =>
      simpa [waitForTaskCompletion, apiCall] using bump_ne_returned _ sol p k (ih hrest)
    | otherError =>
      simpa [waitForTaskCompletion, apiCall] using bump_ne_returned _ sol p k (ih hrest)

/-- C1 (counterexample): with a successfully created task and a single
pending poll round before the overall timeout elapses, the facade operation
does not return Python None — asyncio.wait_for raises asyncio.TimeoutError,
which no facade catches, so a timeout exception propagates to the caller. -/
theorem timeout_raises_counterexample :
    turnstile ⟨.ok ⟨some TASK_CREATED_MSG, some "tid"⟩, [.ok ⟨some "pending", none⟩]⟩
      "sitekey" "pageurl" = .timeoutError ∧
    turnstile ⟨.ok ⟨some TASK_CREATED_MSG, some "tid"⟩, [.ok ⟨some "pending", none⟩]⟩
      "sitekey" "pageurl" ≠ .value none := by
  constructor
  · rfl
  · decide

/-- C1 (amended): for every facade operation (turnstile, noname,
cf_clearance, vercel, recaptcha_v3) and every status-response sequence whose
rounds are all absorbed (transport failures or non-terminal statuses), so no
terminal status is observed before the overall timeout elapses, the operation
surfaces asyncio.TimeoutError to the caller (no solution value is returned
and no remote error text accompanies the failure). -/
theorem nonterminal_polls_raise_timeout (cr : TransportOutcome CreationResponse)
    (polls : List (TransportOutcome StatusResponse))
    (sk url act tok body proxy : String)
    (hcr : pyTruthy (newTaskWrapper cr) = true)
    (hp : ∀ r ∈ polls, IsAbsorbedRound r = true) :
    turnstile ⟨cr, polls⟩ sk url = .timeoutError ∧
    noname ⟨cr, polls⟩ sk url = .timeoutError ∧
    cf_clearance ⟨cr, polls⟩ url body proxy = .timeoutError ∧
    vercel ⟨cr, polls⟩ tok = .timeoutError ∧
    recaptcha_v3 ⟨cr, polls⟩ sk url act = .timeoutError := by
  have hw := wait_absorbed_exhausted polls hp
  refine ⟨?_, ?_, ?_, ?_, ?_⟩ <;>
    simp [turnstile, noname, cf_clearance, vercel, recaptcha_v3,
      createTurnstileTask, createNonameTask, createCfClearanceTask,
      createVercelTask, createRecaptchaV3Task, hcr, hw, waitFor]

/-- C1 (amended, witness): the amended statement instantiated at a concrete
created task and one concrete pending poll round. -/
theorem nonterminal_polls_raise_timeout_witness :
    turnstile ⟨.ok ⟨some "Task created", some "tid"⟩, [.ok ⟨some "pending", none⟩]⟩
      "sk" "url" = .timeoutError :=
  (nonterminal_polls_raise_timeout (.ok ⟨some "Task created", some "tid"⟩)
    [.ok ⟨some "pending", none⟩] "sk" "url" "act" "tok" "body" "proxy"
    (by decide) (by decide)).1

/-- C2: the poller returns only upon observing a terminal status (completed
or rejected): on a sequence with no terminal round it never executes a
return; and on the simulated sequence pending, pending, running, completed
it returns the solution on the 4th poll after exactly 3 intermediate
sleeps. -/
theorem poller_returns_only_on_terminal :
    (∀ (polls : List (TransportOutcome StatusResponse)),
        (∀ r ∈ polls, IsTerminalRound r = false) →
        ∀ sol p k, waitForTaskCompletion polls ≠ .returned sol p k) ∧
    waitForTaskCompletion
      [.ok ⟨some "pending", none⟩, .ok ⟨some "pending", none⟩,
       .ok ⟨some "running", none⟩, .ok ⟨some "completed", some ⟨some "abc123", none⟩⟩]
      = .returned (some "abc123") 4 3 :=
  ⟨wait_no_terminal_not_returned, by rfl⟩

/-- C2 (witness): the general part instantiated at a single pending round:
the poller has not returned after it. -/
theorem poller_returns_only_on_terminal_witness :
    waitForTaskCompletion [.ok ⟨some "pending", none⟩] ≠ .returned none 1 0 :=
  poller_returns_only_on_terminal.1 [.ok ⟨some "pending", none⟩] (by decide) none 1 0

/-- C3: the Submitter returns exactly the provided task id when the body is
message "Task created" with a non-null task_id, and returns None (without
raising) on any deviation: wrong or missing message, missing task_id, or any
transport-layer failure including malformed JSON. -/
theorem submitter_contract :
    (∀ x : String, newTaskWrapper (.ok ⟨some TASK_CREATED_MSG, some x⟩) = some x) ∧
    (∀ response : CreationResponse,
        (response.message ≠ some TASK_CREATED_MSG ∨ response.task_id = none) →
        newTaskWrapper (.ok response) = none) ∧
    newTaskWrapper .connectError = none ∧
    newTaskWrapper .networkError = none ∧
    newTaskWrapper .proxyError = none ∧
    newTaskWrapper .jsonError = none ∧
    newTaskWrapper .otherError = none := by
  refine ⟨fun x => rfl, ?_, rfl, rfl, rfl, rfl, rfl⟩
  rintro ⟨m, tid⟩ h
  cases m with
  | none => rfl
  | some msg =>
    by_cases hm : msg = TASK_CREATED_MSG
    · subst hm
      cases tid with
      | none => rfl
      | some x => simp at h
    · simp [newTaskWrapper, apiCall, hm]

/-- C3 (witness): the deviation branch instantiated at a concrete body whose
message is not the creation literal. -/
theorem submitter_contract_witness :
    newTaskWrapper (.ok ⟨some "Invalid API key", some "tid"⟩) = none :=
  submitter_contract.2.1 ⟨some "Invalid API key", some "tid"⟩ (by decide)

/-- C4: on a completed status the poller returns result.solution from that
response, and returns the literal sentinel "NO_SOLUTION" when the result
omits the solution field or the result object itself is missing. -/
theorem completed_returns_solution :
    (∀ (s : String) (e : Option String) (rest : List (TransportOutcome StatusResponse)),
        waitForTaskCompletion (.ok ⟨some "completed", some ⟨some s, e⟩⟩ :: rest)
          = .returned (some s) 1 0) ∧
    (∀ (e : Option String) (rest : List (TransportOutcome StatusResponse)),
        waitForTaskCompletion (.ok ⟨some "completed", some ⟨none, e⟩⟩ :: rest)
          = .returned (some "NO_SOLUTION") 1 0) ∧
    (∀ rest : List (TransportOutcome StatusResponse),
        waitForTaskCompletion (.ok ⟨some "completed", none⟩ :: rest)
          = .returned (some "NO_SOLUTION") 1 0) :=
  ⟨fun s e rest => rfl, fun e rest => rfl, fun rest => rfl⟩

/-- C5: on a rejected status the poller returns None whatever the result
object holds (present with any error text, error field missing, or the whole
result object missing); the error text never reaches the returned value. -/
theorem rejected_returns_none :
    ∀ (result : Option ResultObj) (rest : List (TransportOutcome StatusResponse)),
      waitForTaskCompletion (.ok ⟨some "rejected", result⟩ :: rest) = .returned none 1 0 :=
  fun result rest => rfl

/-- C6: every transport-layer failure of a poll call is swallowed by
_api_call (no response) and leaves the loop running: the round just adds one
poll and one jitter sleep in front of whatever the rest of the loop does. -/
theorem transport_failure_continues_loop :
    ∀ rest : List (TransportOutcome StatusResponse),
      apiCall (α := StatusResponse) .connectError = none ∧
      apiCall (α := StatusResponse) .networkError = none ∧
      apiCall (α := StatusResponse) .proxyError = none ∧
      apiCall (α := StatusResponse) .otherError = none ∧
      waitForTaskCompletion (.connectError :: rest) = (waitForTaskCompletion rest).bump ∧
      waitForTaskCompletion (.networkError :: rest) = (waitForTaskCompletion rest).bump ∧
      waitForTaskCompletion (.proxyError :: rest) = (waitForTaskCompletion rest).bump ∧
      waitForTaskCompletion (.jsonError :: rest) = (waitForTaskCompletion rest).bump ∧
      waitForTaskCompletion (.otherError :: rest) = (waitForTaskCompletion rest).bump :=
  fun rest => ⟨rfl, rfl, rfl, rfl, rfl, rfl, rfl, rfl, rfl⟩

/-- C7 (code evaluated at the failing input): a status string outside the
five enumeration values makes TaskStatus(...) raise ValueError, which the
poller does not catch and the facade propagates to the caller, contradicting
the claim that the condition is absorbed; a missing status field, by
contrast, does map to no_status and is non-terminal. -/
theorem unrecognized_status_raises :
    waitForTaskCompletion [.ok ⟨some "unknown_status", none⟩] = .raised "unknown_status" ∧
    turnstile ⟨.ok ⟨some TASK_CREATED_MSG, some "tid"⟩, [.ok ⟨some "unknown_status", none⟩]⟩
      "sitekey" "pageurl" = .valueError "unknown_status" ∧
    (∀ rest : List (TransportOutcome StatusResponse),
        waitForTaskCompletion (.ok ⟨none, none⟩ :: rest) = (waitForTaskCompletion rest).bump) :=
  ⟨rfl, rfl, fun rest => rfl⟩

/-- C8: whenever the Submitter yields no task id, every facade operation
returns None at once and the result does not depend on the status-poll
stream — the Poller is never invoked. -/
theorem no_task_id_skips_polling (cr : TransportOutcome CreationResponse)
    (polls : List (TransportOutcome StatusResponse))
    (sk url act tok body proxy : String)
    (h : newTaskWrapper cr = none) :
    turnstile ⟨cr, polls⟩ sk url = .value none ∧
    noname ⟨cr, polls⟩ sk url = .value none ∧
    cf_clearance ⟨cr, polls⟩ url body proxy = .value none ∧
    vercel ⟨cr, polls⟩ tok = .value none ∧
    recaptcha_v3 ⟨cr, polls⟩ sk url act = .value none := by
  refine ⟨?_, ?_, ?_, ?_, ?_⟩ <;>
    simp [turnstile, noname, cf_clearance, vercel, recaptcha_v3,
      createTurnstileTask, createNonameTask, createCfClearanceTask,
      createVercelTask, createRecaptchaV3Task, h, pyTruthy]

/-- C8 (witness): instantiated at a creation body with the wrong message and
a poll stream that would immediately complete if it were ever consulted. -/
theorem no_task_id_skips_polling_witness :
    turnstile ⟨.ok ⟨some "Oops", some "tid"⟩,
      [.ok ⟨some "completed", some ⟨some "sol", none⟩⟩]⟩ "sk" "url" = .value none :=
  (no_task_id_skips_polling (.ok ⟨some "Oops", some "tid"⟩)
    [.ok ⟨some "completed", some ⟨some "sol", none⟩⟩] "sk" "url" "act" "tok" "body" "proxy"
    (by decide)).1

/-- C9: each blocking counterpart equals running the corresponding
asynchronous operation to completion on the same input, for every transport
environment and every argument tuple. -/
theorem sync_equals_async :
    ∀ (t : Transport) (a b c : String),
      turnstile_sync t a b = turnstile t a b ∧
      noname_sync t a b = noname t a b ∧
      cf_clearance_sync t a b c = cf_clearance t a b c ∧
      vercel_sync t a = vercel t a ∧
      recaptcha_v3_sync t a b c = recaptcha_v3 t a b c :=
  fun t a b c => ⟨rfl, rfl, rfl, rfl, rfl⟩

/-- C10: a creation body with message "Task created" and task_id equal to the
empty string makes the Submitter return the empty string, yet every facade
operation tests the id with Python truthiness, finds it falsy, and returns
None without ever polling — for every status-poll stream. -/
theorem empty_task_id_conflated :
    newTaskWrapper (.ok ⟨some TASK_CREATED_MSG, some ""⟩) = some "" ∧
    (∀ (polls : List (TransportOutcome StatusResponse)) (sk url act tok body proxy : String),
      turnstile ⟨.ok ⟨some TASK_CREATED_MSG, some ""⟩, polls⟩ sk url = .value none ∧
      noname ⟨.ok ⟨some TASK_CREATED_MSG, some ""⟩, polls⟩ sk url = .value none ∧
      cf_clearance ⟨.ok ⟨some TASK_CREATED_MSG, some ""⟩, polls⟩ url body proxy = .value none ∧
      vercel ⟨.ok ⟨some TASK_CREATED_MSG, some ""⟩, polls⟩ tok = .value none ∧
      recaptcha_v3 ⟨.ok ⟨some TASK_CREATED_MSG, some ""⟩, polls⟩ sk url act = .value none) := by
  refine ⟨rfl, fun polls sk url act tok body proxy => ⟨?_, ?_, ?_, ?_, ?_⟩⟩ <;> rfl

end Solvium
